import Mathlib

/-!
# Verification of `src/scripts/analyzer.py`

A shallow embedding, in Lean 4, of the JSONL result-file analyzer script, together
with theorems settling the specification's claims about it.

Modelling conventions:
* Python floats are idealised as exact rationals (`ℚ`).  Where IEEE-754 special
  values matter (division by zero inside `statistical_comparison`), floats are
  modelled by `PyFloat`, rationals extended with `inf`, `-inf` and `nan`;
  rounding error is not modelled.
* `json.loads` and the SciPy statistical tests are external libraries; the
  embedding takes them as parameters (a line parser, a `StatLib` structure of
  functions), so every theorem holds for any behaviour of the external calls
  unless a hypothesis pins one down.
* File I/O is modelled by handing the list of physical lines of the file to the
  reader; opening the file is outside the embedded fragment.
-/

namespace Analyzer

/-- Python's `int()` applied to a float: truncation toward zero
(`int(2.7) = 2`, `int(-2.7) = -2`). -/
def pyInt (q : ℚ) : ℤ :=
  if 0 ≤ q then ⌊q⌋ else ⌈q⌉

/-- `calculate_percentile` (analyzer.py lines 116–125).

```
if not values: return None
sorted_values = sorted(values)
index = (percentile / 100) * (len(sorted_values) - 1)
lower = int(index)
upper = min(lower + 1, len(sorted_values) - 1)
weight = index - lower
return sorted_values[lower] * (1 - weight) + sorted_values[upper] * weight
```

List indexing is rendered with `getD`; for `percentile ∈ [0,100]` and a
non-empty list both indices are in range, so this matches Python's in-range
indexing on the whole domain the script (and the claims) exercise.  Python's
stable `sorted` is modelled by the stable `List.insertionSort (· ≤ ·)`. -/
def calculate_percentile (values : List ℚ) (percentile : ℚ) : Option ℚ :=
  if values = [] then none
  else
    let sorted_values := values.insertionSort (· ≤ ·)
    let index : ℚ := (percentile / 100) * ((sorted_values.length : ℚ) - 1)
    let lower : ℤ := pyInt index
    let upper : ℤ := min (lower + 1) ((sorted_values.length : ℤ) - 1)
    let weight : ℚ := index - (lower : ℚ)
    some (sorted_values.getD lower.toNat 0 * (1 - weight) +
          sorted_values.getD upper.toNat 0 * weight)

/-- The percentile formula exactly as the specification words it: with the
sorted copy of `S` of length `m`, `idx = (p/100)*(m-1)`, `lo = floor(idx)`,
`hi = min(lo+1, m-1)`, `w = idx - lo`, result `sorted[lo]*(1-w) + sorted[hi]*w`.
Stated from the spec's words, to be compared with `calculate_percentile`. -/
def percentileSpec (S : List ℚ) (p : ℚ) : ℚ :=
  let sorted := S.insertionSort (· ≤ ·)
  let m := sorted.length
  let idx : ℚ := (p / 100) * ((m : ℚ) - 1)
  let lo : ℤ := ⌊idx⌋
  let hi : ℤ := min (lo + 1) ((m : ℤ) - 1)
  let w : ℚ := idx - (lo : ℚ)
  sorted.getD lo.toNat 0 * (1 - w) + sorted.getD hi.toNat 0 * w

/-- The dictionary returned by `calculate_stats`.  The three percentile fields
hold whatever `calculate_percentile` returned (an `Option`, as in Python where
the call could in principle yield `None`). -/
structure Stats where
  avg : ℚ
  median : Option ℚ
  p25 : Option ℚ
  p75 : Option ℚ
deriving DecidableEq

/-- `calculate_stats` (analyzer.py lines 128–143).  The `label` argument is
accepted and unused, as in the source. -/
def calculate_stats (values : List ℚ) (label : String) : Option Stats :=
  if values = [] then none
  else
    some { avg := values.sum / (values.length : ℚ)
           median := calculate_percentile values 50
           p25 := calculate_percentile values 25
           p75 := calculate_percentile values 75 }

/-! ## Floating-point model for `statistical_comparison`

`statistical_comparison` works on NumPy float arrays, where division by zero
does not raise but produces `inf`, `-inf` or `nan`.  `PyFloat` models an IEEE
double idealised to exact rational arithmetic extended with those special
values (rounding and signed zero are not modelled). -/

inductive PyFloat where
  | fin : ℚ → PyFloat
  | inf : PyFloat
  | ninf : PyFloat
  | nan : PyFloat
deriving DecidableEq

namespace PyFloat

/-- IEEE negation. -/
def neg : PyFloat → PyFloat
  | fin q => fin (-q)
  | inf => ninf
  | ninf => inf
  | nan => nan

/-- IEEE addition (idealised): `inf + (-inf) = nan`, `nan` propagates. -/
def add : PyFloat → PyFloat → PyFloat
  | fin a, fin b => fin (a + b)
  | nan, _ => nan
  | _, nan => nan
  | inf, ninf => nan
  | ninf, inf => nan
  | inf, _ => inf
  | _, inf => inf
  | ninf, _ => ninf
  | _, ninf => ninf

/-- IEEE subtraction. -/
def sub (a b : PyFloat) : PyFloat := a.add b.neg

/-- IEEE multiplication (idealised): `inf * 0 = nan`, `nan` propagates. -/
def mul : PyFloat → PyFloat → PyFloat
  | fin a, fin b => fin (a * b)
  | nan, _ => nan
  | _, nan => nan
  | inf, inf => inf
  | inf, ninf => ninf
  | ninf, inf => ninf
  | ninf, ninf => inf
  | inf, fin b => if 0 < b then inf else if b < 0 then ninf else nan
  | fin a, inf => if 0 < a then inf else if a < 0 then ninf else nan
  | ninf, fin b => if 0 < b then ninf else if b < 0 then inf else nan
  | fin a, ninf => if 0 < a then ninf else if a < 0 then inf else nan

/-- IEEE division (idealised): a nonzero finite value divided by zero gives a
signed infinity, `0/0 = nan`, `inf/inf = nan`, `nan` propagates.  This is what
NumPy does (with a runtime warning) where plain Python would raise
`ZeroDivisionError`. -/
def div : PyFloat → PyFloat → PyFloat
  | fin a, fin b =>
      if b = 0 then (if 0 < a then inf else if a < 0 then ninf else nan)
      else fin (a / b)
  | nan, _ => nan
  | _, nan => nan
  | inf, inf => nan
  | inf, ninf => nan
  | ninf, inf => nan
  | ninf, ninf => nan
  | inf, fin b => if b < 0 then ninf else inf
  | ninf, fin b => if b < 0 then inf else ninf
  | fin _, inf => fin 0
  | fin _, ninf => fin 0

/-- IEEE absolute value. -/
def abs : PyFloat → PyFloat
  | fin q => fin |q|
  | inf => inf
  | ninf => inf
  | nan => nan

/-- IEEE `<` as a boolean: any comparison involving `nan` is `false`. -/
def lt : PyFloat → PyFloat → Bool
  | nan, _ => false
  | _, nan => false
  | fin a, fin b => decide (a < b)
  | fin _, inf => true
  | fin _, ninf => false
  | inf, _ => false
  | ninf, ninf => false
  | ninf, _ => true

end PyFloat

/-- `np.mean`: sum divided by length; on an empty array this is `0/0 = nan`,
as NumPy reports (with a warning). -/
def npMean (l : List PyFloat) : PyFloat :=
  (l.foldl PyFloat.add (.fin 0)).div (.fin (l.length : ℚ))

/-- `np.var(l, ddof=1)`: mean squared deviation with Bessel's correction;
NumPy clamps the divisor `n - ddof` at zero, so the empty array gives
`0/0 = nan`. -/
def npVarDdof1 (l : List PyFloat) : PyFloat :=
  let m := npMean l
  (l.foldl (fun (acc x : PyFloat) => acc.add ((x.sub m).mul (x.sub m))) (.fin 0)).div
    (.fin (max ((l.length : ℚ) - 1) 0))

/-- `np.std(l, ddof=1)`: square root of the Bessel-corrected variance.  The
square root is irrational in general, so it is taken as a parameter (it comes
with the external-library structure below). -/
def npStdDdof1 (sqrt : PyFloat → PyFloat) (l : List PyFloat) : PyFloat :=
  sqrt (npVarDdof1 l)

/-- `interpret_effect_size` (analyzer.py lines 212–221).  The float literals
`0.2`, `0.5`, `0.8` are idealised as exact rationals.  Note that `nan` and
`inf` compare `false` under `<`, so both fall through to `"large"`. -/
def interpret_effect_size (d : PyFloat) : String :=
  if d.lt (.fin (1/5)) then ("negligible")
  else if d.lt (.fin (1/2)) then ("small")
  else if d.lt (.fin (4/5)) then ("medium")
  else ("large")

/-- The external statistical library (`scipy.stats` and `np.sqrt`): the
embedding is parametric in its behaviour.  The three tests may raise (model:
`Except.error`) or return a `(statistic, p_value)` pair. -/
structure StatLib where
  ttest_rel : List PyFloat → List PyFloat → Except String (PyFloat × PyFloat)
  t_ppf : ℚ → ℤ → PyFloat
  mannwhitneyu : List PyFloat → List PyFloat → Except String (PyFloat × PyFloat)
  wilcoxon : List PyFloat → List PyFloat → Except String (PyFloat × PyFloat)
  sqrt : PyFloat → PyFloat

/-- One `results[...]` entry holding a test statistic, p-value and
significance flag. -/
structure TestResult where
  statistic : PyFloat
  p_value : PyFloat
  significant : Bool
deriving DecidableEq

/-- The entry `mean_difference` of the results dictionary. -/
structure MeanDifference where
  mean : PyFloat
  std : PyFloat
  ci_lower : PyFloat
  ci_upper : PyFloat
  ci_level : ℚ
deriving DecidableEq

/-- The entry `effect_size` of the results dictionary. -/
structure EffectSize where
  cohens_d : PyFloat
  interpretation : String
deriving DecidableEq

/-- The dictionary returned by `statistical_comparison`. -/
structure ComparisonResults where
  paired_t : TestResult
  mean_difference : MeanDifference
  effect_size : EffectSize
  mannwhitney : TestResult
  wilcoxon : TestResult
deriving DecidableEq

/-- The default `alpha=0.05` of `statistical_comparison`. -/
def defaultAlpha : ℚ := 1/20

/-- `statistical_comparison` (analyzer.py lines 145–209), parametric in the
external library `lib`.  The codomain is `Except` (a SciPy call may raise)
of `Option` (Python's return value could in principle be `None`); the body
has a single `return results` and no empty-input guard, exactly as in the
source.  Statements are sequenced in source order, so an exception from an
earlier SciPy call propagates before later entries are computed.
`differences = you_values - builtin_values` is elementwise NumPy subtraction,
rendered with `zipWith` (the script only calls this with equal lengths). -/
def statistical_comparison (lib : StatLib) (you_values builtin_values : List PyFloat)
    (alpha : ℚ) : Except String (Option ComparisonResults) :=
  let differences := List.zipWith PyFloat.sub you_values builtin_values
  match lib.ttest_rel you_values builtin_values with
  | .error e => .error e
  | .ok (t_stat, p_value) =>
    let paired_t : TestResult :=
      { statistic := t_stat, p_value := p_value, significant := p_value.lt (.fin alpha) }
    let mean_diff := npMean differences
    let std_diff := npStdDdof1 lib.sqrt differences
    let n : ℕ := differences.length
    let se_diff := std_diff.div (lib.sqrt (.fin (n : ℚ)))
    let t_critical := lib.t_ppf (1 - alpha / 2) ((n : ℤ) - 1)
    let ci_lower := mean_diff.sub (t_critical.mul se_diff)
    let ci_upper := mean_diff.add (t_critical.mul se_diff)
    let mean_difference : MeanDifference :=
      { mean := mean_diff, std := std_diff, ci_lower := ci_lower, ci_upper := ci_upper,
        ci_level := (1 - alpha) * 100 }
    -- line 187: `cohens_d = mean_diff / std_diff` — no guard on `std_diff == 0`
    let cohens_d := mean_diff.div std_diff
    let effect_size : EffectSize :=
      { cohens_d := cohens_d, interpretation := interpret_effect_size cohens_d.abs }
    match lib.mannwhitneyu you_values builtin_values with
    | .error e => .error e
    | .ok (u_stat, u_p_value) =>
      let mannwhitney : TestResult :=
        { statistic := u_stat, p_value := u_p_value, significant := u_p_value.lt (.fin alpha) }
      match lib.wilcoxon you_values builtin_values with
      | .error e => .error e
      | .ok (w_stat, w_p_value) =>
        let wilcoxon_result : TestResult :=
          { statistic := w_stat, p_value := w_p_value, significant := w_p_value.lt (.fin alpha) }
        .ok (some { paired_t := paired_t, mean_difference := mean_difference,
                    effect_size := effect_size, mannwhitney := mannwhitney,
                    wilcoxon := wilcoxon_result })

/-- Projection onto the `effect_size` entry of a `statistical_comparison`
outcome, `none` when the call raised or returned `None`. -/
def effectEntry : Except String (Option ComparisonResults) → Option (PyFloat × String)
  | .ok (some r) => some (r.effect_size.cohens_d, r.effect_size.interpretation)
  | _ => none

/-- A concrete instantiation of the external library, used in closed
witnesses and counterexamples.  Only the properties pinned by theorem
hypotheses matter (`sqrt 0 = 0`, the tests returning without raising); the
test statistics themselves are immaterial to the claims. -/
def statLibStub : StatLib where
  ttest_rel := fun _ _ => .ok (.nan, .nan)
  t_ppf := fun _ _ => .nan
  mannwhitneyu := fun _ _ => .ok (.nan, .nan)
  wilcoxon := fun _ _ => .ok (.nan, .nan)
  sqrt := fun x =>
    match x with
    | .fin q => if q = 0 then .fin 0 else .nan
    | .inf => .inf
    | _ => .nan

/-- The spec's end-to-end example: candidate values `[0.9, 0.9, 0.9]`. -/
def exampleYou : List PyFloat := [.fin (9/10), .fin (9/10), .fin (9/10)]

/-- The spec's end-to-end example: baseline values `[0.5, 0.5, 0.5]`. -/
def exampleBuiltin : List PyFloat := [.fin (1/2), .fin (1/2), .fin (1/2)]

/-- Whether a `statistical_comparison` outcome is Python's `None` (a normal
return of the null value — as opposed to raising, or returning the populated
results dictionary). -/
def isNullResult : Except String (Option ComparisonResults) → Bool
  | .ok none => true
  | _ => false

/-! ## `read_records`

The file is presented as its list of physical lines; `json.loads` is the
external parser, a parameter returning `Except` (its `JSONDecodeError`
carries a message).  Diagnostics printed to `stderr` are collected in order
in the second component. -/

/-- The `stderr` message of analyzer.py line 44:
`f"Error parsing line {line_num} in {file_path}: {e}"`. -/
def parseErrorMessage (line_num : ℕ) (file_path : String) (e : String) : String :=
  "Error parsing line " ++ toString line_num ++ " in " ++ file_path ++ ": " ++ e

/-- The `for line_num, line in enumerate(f, 1)` loop of `read_records`
(analyzer.py lines 35–44): strip, skip blanks, parse, append or diagnose. -/
def read_records_loop (json_loads : String → Except String α) (file_path : String) :
    ℕ → List String → List α × List String
  | _, [] => ([], [])
  | line_num, line :: rest =>
    let stripped := line.trim
    if stripped = "" then read_records_loop json_loads file_path (line_num + 1) rest
    else
      match json_loads stripped with
      | .ok record =>
        let r := read_records_loop json_loads file_path (line_num + 1) rest
        (record :: r.1, r.2)
      | .error e =>
        let r := read_records_loop json_loads file_path (line_num + 1) rest
        (r.1, parseErrorMessage line_num file_path e :: r.2)

/-- `read_records` (analyzer.py lines 31–45) on the lines of an already
opened file: the parsed records in file order, together with the emitted
diagnostics.  Opening the file (and the `FileNotFoundError` path) is outside
this fragment. -/
def read_records (json_loads : String → Except String α) (file_path : String)
    (lines : List String) : List α × List String :=
  read_records_loop json_loads file_path 1 lines

/-! ## Records, indexing by id, and the aligned passAtK lists

Only the fields the comparison pipeline reads are modelled: `id` (a string or
a number in Python — the type is a parameter with decidable equality) and the
optional numeric `passAtK` (`record.get("passAtK")`, `None` when absent). -/

/-- A parsed record, projected to the fields the comparison uses. -/
structure Record (α : Type) where
  id : α
  passAtK : Option ℚ
deriving DecidableEq

/-- The dict comprehension of analyzer.py line 260 that indexes a record
list by id: a later record with the same id overwrites an earlier one. -/
def index_by_id {α : Type} [DecidableEq α] (records : List (Record α)) :
    α → Option (Record α) :=
  records.foldl (fun table r => fun i => if i = r.id then some r else table i)
    (fun _ => none)

/-- `matching_ids = set(you_by_id.keys()) & set(builtin_by_id.keys())`
(analyzer.py line 264).  A Python set iterates in arbitrary order; the model
fixes one concrete order (first occurrence in the candidate file).  Every
claim proved below is insensitive to this choice. -/
def matching_ids {α : Type} [DecidableEq α] (you_records builtin_records : List (Record α)) :
    List α :=
  ((you_records.map Record.id).dedup).filter
    (fun i => decide (i ∈ builtin_records.map Record.id))

/-- The aligned pair contributed by one matching id, if any: both records must
exist (they always do for a matching id) and both must carry a non-null
`passAtK`. -/
def alignedPairAt {α : Type} [DecidableEq α] (you_records builtin_records : List (Record α))
    (i : α) : Option (ℚ × ℚ) :=
  match index_by_id you_records i, index_by_id builtin_records i with
  | some you_record, some builtin_record =>
    match you_record.passAtK, builtin_record.passAtK with
    | some a, some b => some (a, b)
    | _, _ => none
  | _, _ => none

/-- One iteration of the `for record_id in matching_ids` loop of `main`
(analyzer.py lines 272–285), restricted to the two appends that build
`you_passAtK_values` and `builtin_passAtK_values` (the `you_better`
bookkeeping feeds only printing).  The dict lookups cannot fail for a
matching id; the unreachable fallback leaves the accumulator unchanged. -/
def passAtK_step {α : Type} [DecidableEq α] (you_records builtin_records : List (Record α))
    (acc : List ℚ × List ℚ) (i : α) : List ℚ × List ℚ :=
  match index_by_id you_records i, index_by_id builtin_records i with
  | some you_record, some builtin_record =>
    match you_record.passAtK, builtin_record.passAtK with
    | some a, some b => (acc.1 ++ [a], acc.2 ++ [b])
    | _, _ => acc
  | _, _ => acc

/-- The two aligned `passAtK` value lists built by the loop of analyzer.py
lines 268–285. -/
def build_passAtK_lists {α : Type} [DecidableEq α]
    (you_records builtin_records : List (Record α)) : List ℚ × List ℚ :=
  (matching_ids you_records builtin_records).foldl
    (passAtK_step you_records builtin_records) ([], [])

/-- The spec's Aligned Sample Pair example: candidate set
`{id1: 0.5, id2: 0.8}`. -/
def exampleYouRecords : List (Record String) :=
  [{ id := "id1", passAtK := some (1/2) }, { id := "id2", passAtK := some (4/5) }]

/-- The spec's Aligned Sample Pair example: baseline set
`{id2: 0.6, id3: 0.9}`. -/
def exampleBuiltinRecords : List (Record String) :=
  [{ id := "id2", passAtK := some (3/5) }, { id := "id3", passAtK := some (9/10) }]

/-- The guard of analyzer.py line 307:
`if you_passAtK_values and builtin_passAtK_values and
len(you_passAtK_values) == len(builtin_passAtK_values):` —
a Python list is truthy iff non-empty. -/
def individual_stats_guard (ys bs : List ℚ) : Bool :=
  !ys.isEmpty && !bs.isEmpty && ys.length == bs.length

/-! ## `get_keys_recursive` -/

/-- A parsed JSON value. -/
inductive JsonVal where
  | obj : List (String × JsonVal) → JsonVal
  | arr : List JsonVal → JsonVal
  | str : String → JsonVal
  | num : ℚ → JsonVal
  | boolean : Bool → JsonVal
  | null : JsonVal

/-- The `for key, value in obj.items()` loop of `get_keys_recursive`
(analyzer.py lines 20–27): emit the dotted key, recurse into mapping values
with the emitted key as prefix, recurse into the first element of a
non-empty list when that element is a mapping (with `key[]` as prefix). -/
def keysOfFields : List (String × JsonVal) → String → List String
  | [], _ => []
  | (key, value) :: rest, pre =>
    let full_key := if pre = "" then key else pre ++ "." ++ key
    let nested :=
      match value with
      | .obj fs => keysOfFields fs full_key
      | .arr (first :: _) =>
        match first with
        | .obj fs => keysOfFields fs (full_key ++ "[]")
        | _ => []
      | _ => []
    full_key :: (nested ++ keysOfFields rest pre)

/-- `get_keys_recursive` (analyzer.py lines 17–28): a non-mapping argument
contributes no keys (`isinstance(obj, dict)` fails and the empty `keys` list
is returned). -/
def get_keys_recursive (obj : JsonVal) (pre : String) : List String :=
  match obj with
  | .obj fields => keysOfFields fields pre
  | _ => []

/-- The child keys contributed by one value under its emitted dotted path,
worded from the claim: a mapping is recursed into with the emitted path as
the new prefix; a non-empty sequence whose first element is a mapping is
recursed into that first element only, with `path[]` as the new prefix; any
other shape contributes nothing. -/
def childKeys (value : JsonVal) (emitted : String) : List String :=
  match value with
  | .obj _ => get_keys_recursive value emitted
  | .arr (first :: _) =>
    match first with
    | .obj _ => get_keys_recursive first (emitted ++ "[]")
    | _ => []
  | _ => []

/-- A nested record exercising every shape `get_keys_recursive`
distinguishes: a nested mapping, an array of objects (only element 0 is
sampled), and an array of non-objects. -/
def exampleNested : JsonVal :=
  .obj [("a", .obj [("b", .num 1)]),
        ("c", .arr [.obj [("d", .null)], .obj [("e", .null)]]),
        ("f", .arr [.num 2])]

/-! ## `main`: command-line path selection (analyzer.py lines 223–236)

The module imports `json`, `sys`, `pathlib.Path`, `collections.Counter`,
`numpy` and `scipy.stats` — but not `argparse`.  Line 226 nevertheless
evaluates `argparse.ArgumentParser(...)`, so every invocation of `main`
raises a `NameError` before the arguments are even parsed.  Lines 235–236
rebind both paths to defaults (line 236 referencing `default_builtin_path`,
another name that is never defined).  The three model functions below peel
these layers. -/

/-- Outcome of the path-selection prefix of `main`. -/
inductive PathOutcome where
  | nameError (missing_name : String)
  | paths (you_path builtin_path : String)
deriving DecidableEq

/-- `default_you_path` (line 225), also the argparse default of line 227. -/
def default_you_path : String := "data/results/2026-02-18/droid/you.jsonl"

/-- The argparse default for `builtin_path` (line 228). -/
def argparse_builtin_default : String := "data/results/2026-02-18/droid/builtin.jsonl"

/-- Lines 223–236 as written: line 226 references `argparse`, a module that
was never brought into scope, so a `NameError` naming `argparse` is raised
whatever arguments were supplied. -/
def main_select_paths (you_arg builtin_arg : Option String) : PathOutcome :=
  PathOutcome.nameError ("argparse")

/-- Lines 227–236 under the counterfactual that `argparse` were imported:
the positional arguments (with defaults when omitted) are bound at lines
227–232, rebound at line 235, and line 236 references `default_builtin_path`,
a name never defined — `NameError` again. -/
def main_select_paths_if_imported (you_arg builtin_arg : Option String) : PathOutcome :=
  let you_path := you_arg.getD default_you_path
  let builtin_path := builtin_arg.getD argparse_builtin_default
  let you_path := default_you_path
  PathOutcome.nameError ("default_builtin_path")

/-- Lines 227–236 under the further counterfactual that `default_builtin_path`
were defined (with the value line 228 suggests): lines 235–236 overwrite both
parsed paths with the defaults, so the supplied arguments are discarded
either way. -/
def main_select_paths_if_names_fixed (you_arg builtin_arg : Option String) : PathOutcome :=
  let you_path := you_arg.getD default_you_path
  let builtin_path := builtin_arg.getD argparse_builtin_default
  let you_path := default_you_path
  let builtin_path := argparse_builtin_default
  PathOutcome.paths you_path builtin_path

/-! ## Helper lemmas -/

theorem getD_mem_of_lt {l : List ℚ} {n : ℕ} (d : ℚ) (h : n < l.length) :
    l.getD n d ∈ l := by
  rw [List.getD_eq_getElem l d h]
  exact List.getElem_mem h

theorem sorted_le_getD_zero {L : List ℚ} (hL : List.Sorted (· ≤ ·) L) :
    ∀ x ∈ L, L.getD 0 0 ≤ x := by
  cases L with
  | nil => intro x hx; cases hx
  | cons a t =>
    intro x hx
    rcases List.mem_cons.mp hx with rfl | hx
    · simp
    · simpa using List.rel_of_sorted_cons hL x hx

theorem sorted_getD_last_ge (L : List ℚ) :
    List.Sorted (· ≤ ·) L → ∀ x ∈ L, x ≤ L.getD (L.length - 1) 0 := by
  induction L with
  | nil => intro _ x hx; cases hx
  | cons a t ih =>
    intro hL x hx
    cases t with
    | nil =>
      rcases List.mem_cons.mp hx with rfl | hx
      · simp
      · cases hx
    | cons b u =>
      have hst : List.Sorted (· ≤ ·) (b :: u) := (List.sorted_cons.mp hL).2
      have hgd : (a :: b :: u).getD ((a :: b :: u).length - 1) 0
          = (b :: u).getD ((b :: u).length - 1) 0 := by
        simp [List.getD_cons_succ]
      rcases List.mem_cons.mp hx with rfl | hx
      · have hmem : (b :: u).getD ((b :: u).length - 1) 0 ∈ (b :: u) :=
          getD_mem_of_lt 0 (by simp)
        rw [hgd]
        exact List.rel_of_sorted_cons hL _ hmem
      · rw [hgd]
        exact ih hst x hx

/-! ## C1: the percentile formula and the median -/

/-- **C1.**  For every non-empty numeric list `S` and percentile `p ∈ [0,100]`,
`calculate_percentile S p` equals the specification's linear-interpolation
formula (`percentileSpec`), and the median reported by `calculate_stats` is
`calculate_percentile S 50`. -/
theorem percentile_matches_spec_formula (S : List ℚ) (p : ℚ) (label : String)
    (hS : S ≠ []) (h0 : 0 ≤ p) (h100 : p ≤ 100) :
    calculate_percentile S p = some (percentileSpec S p) ∧
    ∃ st, calculate_stats S label = some st ∧
      st.median = calculate_percentile S 50 := by
  have hlen : 0 < (S.insertionSort (· ≤ ·)).length := by
    rw [List.length_insertionSort]
    exact List.length_pos.mpr hS
  have h1 : (1 : ℚ) ≤ ((S.insertionSort (· ≤ ·)).length : ℚ) := by exact_mod_cast hlen
  have hidx : 0 ≤ p / 100 * (((S.insertionSort (· ≤ ·)).length : ℚ) - 1) := by
    apply mul_nonneg (div_nonneg h0 (by norm_num))
    linarith
  constructor
  · simp only [calculate_percentile, percentileSpec, if_neg hS, pyInt, if_pos hidx]
  · refine ⟨{ avg := S.sum / (S.length : ℚ), median := calculate_percentile S 50,
              p25 := calculate_percentile S 25, p75 := calculate_percentile S 75 },
      ?_, rfl⟩
    simp only [calculate_stats, if_neg hS]

/-- Witness for C1 at `S = [2, 1]`, `p = 50`. -/
theorem percentile_matches_spec_formula_witness :
    calculate_percentile [(2 : ℚ), 1] 50 = some (percentileSpec [(2 : ℚ), 1] 50) ∧
    ∃ st, calculate_stats [(2 : ℚ), 1] "You" = some st ∧
      st.median = calculate_percentile [(2 : ℚ), 1] 50 :=
  percentile_matches_spec_formula [2, 1] 50 "You" (List.cons_ne_nil _ _)
    (by norm_num) (by norm_num)

/-! ## C6: percentile 0 is the minimum, percentile 100 the maximum -/

/-- **C6.**  For every non-empty list, `calculate_percentile S 0` is the
minimum of `S` and `calculate_percentile S 100` the maximum (characterised
as a member of `S` below, resp. above, every element). -/
theorem percentile_zero_hundred_min_max (S : List ℚ) (hS : S ≠ []) :
    (∃ q, calculate_percentile S 0 = some q ∧ q ∈ S ∧ ∀ x ∈ S, q ≤ x) ∧
    (∃ q, calculate_percentile S 100 = some q ∧ q ∈ S ∧ ∀ x ∈ S, x ≤ q) := by
  have hperm : (S.insertionSort (· ≤ ·)).Perm S := List.perm_insertionSort _ S
  have hsorted : List.Sorted (· ≤ ·) (S.insertionSort (· ≤ ·)) :=
    List.sorted_insertionSort _ S
  have hlen : 0 < (S.insertionSort (· ≤ ·)).length := by
    rw [List.length_insertionSort]
    exact List.length_pos.mpr hS
  constructor
  · refine ⟨(S.insertionSort (· ≤ ·)).getD 0 0, ?_, ?_, ?_⟩
    · simp only [calculate_percentile, if_neg hS]
      norm_num [pyInt]
    · exact hperm.subset (getD_mem_of_lt 0 hlen)
    · intro x hx
      exact sorted_le_getD_zero hsorted x (hperm.mem_iff.mpr hx)
  · refine ⟨(S.insertionSort (· ≤ ·)).getD ((S.insertionSort (· ≤ ·)).length - 1) 0,
      ?_, ?_, ?_⟩
    · simp only [calculate_percentile, if_neg hS]
      have hidx : (100 : ℚ) / 100 * (((S.insertionSort (· ≤ ·)).length : ℚ) - 1)
          = ((((S.insertionSort (· ≤ ·)).length : ℤ) - 1 : ℤ) : ℚ) := by
        push_cast
        ring
      rw [hidx]
      have hz : (0 : ℤ) ≤ ((S.insertionSort (· ≤ ·)).length : ℤ) - 1 := by
        omega
      have hpy : pyInt (((((S.insertionSort (· ≤ ·)).length : ℤ) - 1 : ℤ) : ℚ))
          = ((S.insertionSort (· ≤ ·)).length : ℤ) - 1 := by
        simp only [pyInt, Int.floor_intCast, Int.ceil_intCast, ite_self]
      rw [hpy]
      have hmin : min ((((S.insertionSort (· ≤ ·)).length : ℤ) - 1) + 1)
          (((S.insertionSort (· ≤ ·)).length : ℤ) - 1)
          = ((S.insertionSort (· ≤ ·)).length : ℤ) - 1 := by
        omega
      rw [hmin]
      have htn : ((((S.insertionSort (· ≤ ·)).length : ℤ) - 1)).toNat
          = (S.insertionSort (· ≤ ·)).length - 1 := by
        omega
      rw [htn]
      norm_num
    · exact hperm.subset (getD_mem_of_lt 0 (by omega))
    · intro x hx
      exact sorted_getD_last_ge _ hsorted x (hperm.mem_iff.mpr hx)

/-- Witness for C6 at `S = [3, 1, 2]`. -/
theorem percentile_zero_hundred_min_max_witness :
    (∃ q, calculate_percentile [(3 : ℚ), 1, 2] 0 = some q ∧ q ∈ [(3 : ℚ), 1, 2] ∧
      ∀ x ∈ [(3 : ℚ), 1, 2], q ≤ x) ∧
    (∃ q, calculate_percentile [(3 : ℚ), 1, 2] 100 = some q ∧ q ∈ [(3 : ℚ), 1, 2] ∧
      ∀ x ∈ [(3 : ℚ), 1, 2], x ≤ q) :=
  percentile_zero_hundred_min_max [3, 1, 2] (List.cons_ne_nil _ _)

/-! ## C4: the record reader -/

theorem read_records_loop_eq {α : Type} (json_loads : String → Except String α)
    (fp : String) :
    ∀ (lines : List String) (n : ℕ),
      read_records_loop json_loads fp n lines
        = (lines.filterMap (fun l =>
             if l.trim = "" then none else (json_loads l.trim).toOption),
           (List.enumFrom n lines).filterMap (fun pr =>
             if pr.2.trim = "" then none
             else
               match json_loads pr.2.trim with
               | .ok _ => none
               | .error e => some (parseErrorMessage pr.1 fp e))) := by
  intro lines
  induction lines with
  | nil => intro n; rfl
  | cons l rest ih =>
    intro n
    by_cases h : l.trim = ""
    · simp [read_records_loop, h, ih, List.enumFrom]
    · cases hp : json_loads l.trim with
      | ok r => simp [read_records_loop, h, hp, ih, List.enumFrom, Except.toOption]
      | error e => simp [read_records_loop, h, hp, ih, List.enumFrom, Except.toOption]

theorem length_filterMap_eq_countP {α β : Type} (f : α → Option β) :
    ∀ l : List α, (l.filterMap f).length = l.countP (fun a => (f a).isSome) := by
  intro l
  induction l with
  | nil => rfl
  | cons a t ih =>
    cases h : f a <;>
      simp [List.filterMap_cons, h, List.countP_cons, ih]

theorem countP_enumFrom (q : String → Bool) :
    ∀ (l : List String) (n : ℕ),
      (List.enumFrom n l).countP (fun pr => q pr.2) = l.countP q := by
  intro l
  induction l with
  | nil => intro n; rfl
  | cons a t ih =>
    intro n
    simp [List.enumFrom, List.countP_cons, ih]

/-- **C4.**  `read_records` returns exactly the successfully parsed records in
file order, emits exactly one diagnostic per non-blank line that fails to
parse — carrying its 1-based line number and the file path — skips blank
lines silently, and (being a total function into a pair) raises for no
malformed content. -/
theorem read_records_contract {α : Type} (json_loads : String → Except String α)
    (file_path : String) (lines : List String) :
    (read_records json_loads file_path lines).1
      = lines.filterMap (fun l =>
          if l.trim = "" then none else (json_loads l.trim).toOption) ∧
    (read_records json_loads file_path lines).2
      = (List.enumFrom 1 lines).filterMap (fun pr =>
          if pr.2.trim = "" then none
          else
            match json_loads pr.2.trim with
            | .ok _ => none
            | .error e => some (parseErrorMessage pr.1 file_path e)) ∧
    (read_records json_loads file_path lines).1.length
      = lines.countP (fun l => !(l.trim == "") && (json_loads l.trim).toOption.isSome) ∧
    (read_records json_loads file_path lines).2.length
      = lines.countP (fun l => !(l.trim == "") && !(json_loads l.trim).toOption.isSome) := by
  have hmain := read_records_loop_eq json_loads file_path lines 1
  refine ⟨?_, ?_, ?_, ?_⟩
  · rw [read_records, hmain]
  · rw [read_records, hmain]
  · rw [read_records, hmain]
    rw [length_filterMap_eq_countP]
    apply List.countP_congr
    intro l _
    by_cases h : l.trim = "" <;> simp [h]
  · rw [read_records, hmain]
    rw [length_filterMap_eq_countP]
    rw [show (fun pr : ℕ × String =>
          ((if pr.2.trim = "" then none
            else
              match json_loads pr.2.trim with
              | .ok _ => none
              | .error e => some (parseErrorMessage pr.1 file_path e)) : Option String).isSome)
        = (fun pr : ℕ × String =>
            (fun l => !(l.trim == "") && !(json_loads l.trim).toOption.isSome) pr.2) from ?_]
    · exact countP_enumFrom
        (fun l => !(l.trim == "") && !(json_loads l.trim).toOption.isSome) lines 1
    · funext pr
      by_cases h : pr.2.trim = ""
      · simp [h]
      · cases hp : json_loads pr.2.trim <;> simp [h, hp, Except.toOption]

/-! ## C9: indexing by id is last-wins -/

/-- **C9.**  The id-indexed dictionary built from a record list keeps, for
every id, the record occurring last in file order. -/
theorem index_by_id_last_wins {α : Type} [DecidableEq α]
    (records : List (Record α)) (i : α) :
    index_by_id records i
      = (records.filter (fun r => decide (r.id = i))).getLast? := by
  induction records using List.reverseRecOn with
  | nil => rfl
  | append_singleton rs r ih =>
    rw [index_by_id, List.foldl_append]
    by_cases h : i = r.id
    · simp only [List.foldl_cons, List.foldl_nil, if_pos h]
      rw [List.filter_append]
      simp [h.symm]
    · simp only [List.foldl_cons, List.foldl_nil, if_neg h]
      rw [List.filter_append]
      have hne : ¬r.id = i := fun hh => h hh.symm
      have : (List.filter (fun r => decide (r.id = i)) [r]) = [] := by
        simp [hne]
      rw [this, List.append_nil]
      exact ih

/-! ## C5 and C10: the aligned sample pair lists -/

theorem passAtK_step_eq {α : Type} [DecidableEq α]
    (you_records builtin_records : List (Record α)) (acc : List ℚ × List ℚ) (i : α) :
    passAtK_step you_records builtin_records acc i
      = match alignedPairAt you_records builtin_records i with
        | some pr => (acc.1 ++ [pr.1], acc.2 ++ [pr.2])
        | none => acc := by
  simp only [passAtK_step, alignedPairAt]
  cases hy : index_by_id you_records i with
  | none => rfl
  | some yr =>
    cases hb : index_by_id builtin_records i with
    | none => rfl
    | some br =>
      obtain ⟨yid, ypk⟩ := yr
      obtain ⟨bid, bpk⟩ := br
      cases ypk <;> cases bpk <;> rfl

theorem build_foldl_eq {α : Type} [DecidableEq α]
    (you_records builtin_records : List (Record α)) :
    ∀ (ids : List α) (acc : List ℚ × List ℚ),
      ids.foldl (passAtK_step you_records builtin_records) acc
        = (acc.1 ++ (ids.filterMap (alignedPairAt you_records builtin_records)).map Prod.fst,
           acc.2 ++ (ids.filterMap (alignedPairAt you_records builtin_records)).map Prod.snd) := by
  intro ids
  induction ids with
  | nil => intro acc; simp
  | cons i rest ih =>
    intro acc
    rw [List.foldl_cons, passAtK_step_eq, List.filterMap_cons]
    cases hp : alignedPairAt you_records builtin_records i with
    | none => rw [ih]
    | some pr =>
      rw [ih]
      simp [List.append_assoc]

theorem build_passAtK_lists_eq {α : Type} [DecidableEq α]
    (you_records builtin_records : List (Record α)) :
    build_passAtK_lists you_records builtin_records
      = (((matching_ids you_records builtin_records).filterMap
            (alignedPairAt you_records builtin_records)).map Prod.fst,
         ((matching_ids you_records builtin_records).filterMap
            (alignedPairAt you_records builtin_records)).map Prod.snd) := by
  rw [build_passAtK_lists, build_foldl_eq]
  simp

theorem alignedPairAt_some {α : Type} [DecidableEq α]
    {you_records builtin_records : List (Record α)} {i : α} {pr : ℚ × ℚ}
    (h : alignedPairAt you_records builtin_records i = some pr) :
    (index_by_id you_records i).bind Record.passAtK = some pr.1 ∧
    (index_by_id builtin_records i).bind Record.passAtK = some pr.2 := by
  simp only [alignedPairAt] at h
  cases hy : index_by_id you_records i with
  | none => rw [hy] at h; cases h
  | some yr =>
    cases hb : index_by_id builtin_records i with
    | none => rw [hy, hb] at h; cases h
    | some br =>
      rw [hy, hb] at h
      obtain ⟨yid, ypk⟩ := yr
      obtain ⟨bid, bpk⟩ := br
      cases ypk with
      | none => simp at h
      | some a =>
        cases bpk with
        | none => simp at h
        | some b =>
          obtain rfl : (a, b) = pr := by simpa using h
          exact ⟨by simp, by simp⟩

theorem build_position {α : Type} [DecidableEq α]
    (you_records builtin_records : List (Record α)) (k : ℕ)
    (hk : k < (build_passAtK_lists you_records builtin_records).1.length) :
    ∃ i, i ∈ matching_ids you_records builtin_records ∧
      (index_by_id you_records i).bind Record.passAtK
        = (build_passAtK_lists you_records builtin_records).1[k]? ∧
      (index_by_id builtin_records i).bind Record.passAtK
        = (build_passAtK_lists you_records builtin_records).2[k]? := by
  have hb := build_passAtK_lists_eq you_records builtin_records
  have hk' : k < ((matching_ids you_records builtin_records).filterMap
      (alignedPairAt you_records builtin_records)).length := by
    rw [hb] at hk
    simpa using hk
  have hmem : ((matching_ids you_records builtin_records).filterMap
      (alignedPairAt you_records builtin_records))[k]
      ∈ (matching_ids you_records builtin_records).filterMap
          (alignedPairAt you_records builtin_records) := List.getElem_mem hk'
  obtain ⟨i, hi, hpi⟩ := List.mem_filterMap.mp hmem
  obtain ⟨h1, h2⟩ := alignedPairAt_some hpi
  refine ⟨i, hi, ?_, ?_⟩
  · rw [hb, h1]
    simp [List.getElem?_eq_getElem hk']
  · rw [hb, h2]
    simp [List.getElem?_eq_getElem hk']

theorem mem_matching_ids {α : Type} [DecidableEq α]
    {you_records builtin_records : List (Record α)} {i : α}
    (h : i ∈ matching_ids you_records builtin_records) :
    i ∈ you_records.map Record.id ∧ i ∈ builtin_records.map Record.id := by
  rw [matching_ids] at h
  have h2 := List.mem_filter.mp h
  exact ⟨List.mem_dedup.mp h2.1, by simpa using h2.2⟩

/-- **C5.**  Every position of the aligned lists corresponds to one identifier
present in both record sets with a non-null `passAtK` in both, whose two
values are paired at that position; and on the spec's example sets the
intersection is `{id2}` and the aligned pair is `([0.8], [0.6])`. -/
theorem aligned_pair_restriction_and_example {α : Type} [DecidableEq α]
    (you_records builtin_records : List (Record α)) :
    (∀ k, k < (build_passAtK_lists you_records builtin_records).1.length →
      ∃ i, i ∈ you_records.map Record.id ∧ i ∈ builtin_records.map Record.id ∧
        (index_by_id you_records i).bind Record.passAtK
          = (build_passAtK_lists you_records builtin_records).1[k]? ∧
        (index_by_id builtin_records i).bind Record.passAtK
          = (build_passAtK_lists you_records builtin_records).2[k]?) ∧
    matching_ids exampleYouRecords exampleBuiltinRecords = ["id2"] ∧
    build_passAtK_lists exampleYouRecords exampleBuiltinRecords = ([4/5], [3/5]) := by
  refine ⟨?_, ?_, ?_⟩
  · intro k hk
    obtain ⟨i, hi, h1, h2⟩ := build_position you_records builtin_records k hk
    obtain ⟨hy, hbm⟩ := mem_matching_ids hi
    exact ⟨i, hy, hbm, h1, h2⟩
  · with_unfolding_all decide
  · with_unfolding_all decide

/-- Witness for C5: position 0 of the aligned lists on the example sets. -/
theorem aligned_pair_restriction_and_example_witness :
    ∃ i, i ∈ exampleYouRecords.map Record.id ∧
      i ∈ exampleBuiltinRecords.map Record.id ∧
      (index_by_id exampleYouRecords i).bind Record.passAtK
        = (build_passAtK_lists exampleYouRecords exampleBuiltinRecords).1[0]? ∧
      (index_by_id exampleBuiltinRecords i).bind Record.passAtK
        = (build_passAtK_lists exampleYouRecords exampleBuiltinRecords).2[0]? :=
  (aligned_pair_restriction_and_example exampleYouRecords exampleBuiltinRecords).1 0
    (by with_unfolding_all decide)

/-- **C10.**  The two lists built by the loop always have equal length, each
position of both lists carries the two values of one matching identifier, and
whenever the candidate list is non-empty the guard of line 307 is satisfied. -/
theorem aligned_lists_equal_length_and_guard {α : Type} [DecidableEq α]
    (you_records builtin_records : List (Record α)) :
    (build_passAtK_lists you_records builtin_records).1.length
      = (build_passAtK_lists you_records builtin_records).2.length ∧
    (∀ k, k < (build_passAtK_lists you_records builtin_records).1.length →
      ∃ i, i ∈ matching_ids you_records builtin_records ∧
        (index_by_id you_records i).bind Record.passAtK
          = (build_passAtK_lists you_records builtin_records).1[k]? ∧
        (index_by_id builtin_records i).bind Record.passAtK
          = (build_passAtK_lists you_records builtin_records).2[k]?) ∧
    ((build_passAtK_lists you_records builtin_records).1 ≠ [] →
      individual_stats_guard (build_passAtK_lists you_records builtin_records).1
        (build_passAtK_lists you_records builtin_records).2 = true) := by
  have hb := build_passAtK_lists_eq you_records builtin_records
  have hlen : (build_passAtK_lists you_records builtin_records).1.length
      = (build_passAtK_lists you_records builtin_records).2.length := by
    rw [hb]
    simp
  refine ⟨hlen, fun k hk => build_position you_records builtin_records k hk, ?_⟩
  intro hne
  have h2 : (build_passAtK_lists you_records builtin_records).2 ≠ [] := by
    intro h0
    apply hne
    rw [← List.length_eq_zero, hlen, h0, List.length_nil]
  rw [individual_stats_guard]
  simp [hne, h2, hlen]

/-- Witness for C10: the guard holds on the example sets. -/
theorem aligned_lists_equal_length_and_guard_witness :
    individual_stats_guard
      (build_passAtK_lists exampleYouRecords exampleBuiltinRecords).1
      (build_passAtK_lists exampleYouRecords exampleBuiltinRecords).2 = true :=
  (aligned_lists_equal_length_and_guard exampleYouRecords exampleBuiltinRecords).2.2
    (by with_unfolding_all decide)

/-! ## C8: the key extractor -/

theorem keysOfFields_eq_flatMap :
    ∀ (fields : List (String × JsonVal)) (pre : String),
      keysOfFields fields pre
        = fields.flatMap (fun kv =>
            (if pre = "" then kv.1 else pre ++ "." ++ kv.1) ::
              childKeys kv.2 (if pre = "" then kv.1 else pre ++ "." ++ kv.1)) := by
  intro fields
  induction fields with
  | nil => intro pre; simp [keysOfFields]
  | cons kv rest ih =>
    intro pre
    obtain ⟨key, value⟩ := kv
    rw [List.flatMap_cons, ← ih]
    cases value with
    | obj fs => rw [keysOfFields] <;> simp [childKeys, get_keys_recursive]
    | arr l =>
      cases l with
      | nil => rw [keysOfFields] <;> simp [childKeys]
      | cons first t =>
        cases first <;> (rw [keysOfFields] <;> simp [childKeys, get_keys_recursive])
    | str s => rw [keysOfFields] <;> simp [childKeys]
    | num q => rw [keysOfFields] <;> simp [childKeys]
    | boolean b => rw [keysOfFields] <;> simp [childKeys]
    | null => rw [keysOfFields] <;> simp [childKeys]

/-- **C8.**  On a mapping, `get_keys_recursive` emits, per key in order, the
dotted path `prefix.key` (bare `key` at top level) followed by the keys of
its children: a mapping child is recursed into under the emitted path, a
non-empty array child whose first element is a mapping is recursed into that
first element only under `path[]`, and any other shape contributes nothing;
a non-mapping argument yields no keys.  The concrete example exercises all
three shapes. -/
theorem get_keys_recursive_spec :
    (∀ (fields : List (String × JsonVal)) (pre : String),
      get_keys_recursive (.obj fields) pre
        = fields.flatMap (fun kv =>
            (if pre = "" then kv.1 else pre ++ "." ++ kv.1) ::
              childKeys kv.2 (if pre = "" then kv.1 else pre ++ "." ++ kv.1))) ∧
    (∀ (l : List JsonVal) (pre : String), get_keys_recursive (.arr l) pre = []) ∧
    (∀ (s pre : String), get_keys_recursive (.str s) pre = []) ∧
    (∀ (q : ℚ) (pre : String), get_keys_recursive (.num q) pre = []) ∧
    (∀ (b : Bool) (pre : String), get_keys_recursive (.boolean b) pre = []) ∧
    (∀ pre : String, get_keys_recursive .null pre = []) ∧
    get_keys_recursive exampleNested ("") = ["a", "a.b", "c", "c[].d", "f"] := by
  refine ⟨?_, fun _ _ => rfl, fun _ _ => rfl, fun _ _ => rfl, fun _ _ => rfl,
    fun _ => rfl, ?_⟩
  · intro fields pre
    rw [get_keys_recursive]
    exact keysOfFields_eq_flatMap fields pre
  · simp [exampleNested, get_keys_recursive, keysOfFields, childKeys]

/-! ## C7: behaviour on empty input sequences -/

/-- **C7 (amended).**  `calculate_percentile` and `calculate_stats` return the
null result on an empty input without raising; `statistical_comparison`,
however, has no empty-input guard and never returns a null result — whatever
the external statistical library does, it either propagates an exception
from one of the test calls or returns the fully populated results
dictionary. -/
theorem empty_input_behaviour :
    (∀ p : ℚ, calculate_percentile [] p = none) ∧
    (∀ label : String, calculate_stats [] label = none) ∧
    (∀ (lib : StatLib) (you_values builtin_values : List PyFloat) (alpha : ℚ),
      statistical_comparison lib you_values builtin_values alpha ≠ Except.ok none) := by
  refine ⟨fun _ => rfl, fun _ => rfl, ?_⟩
  intro lib ys bs alpha
  rw [statistical_comparison]
  cases h1 : lib.ttest_rel ys bs with
  | error e => simp
  | ok pr1 =>
    obtain ⟨t, p⟩ := pr1
    cases h2 : lib.mannwhitneyu ys bs with
    | error e => simp
    | ok pr2 =>
      obtain ⟨u, up⟩ := pr2
      cases h3 : lib.wilcoxon ys bs with
      | error e => simp
      | ok pr3 =>
        obtain ⟨w, wp⟩ := pr3
        simp

/-- Witness for C7 (amended) at empty inputs and the stubbed library. -/
theorem empty_input_behaviour_witness :
    calculate_percentile [] 50 = none ∧ calculate_stats [] ("You") = none ∧
    statistical_comparison statLibStub [] [] defaultAlpha ≠ Except.ok none :=
  ⟨empty_input_behaviour.1 50, empty_input_behaviour.2.1 ("You"),
   empty_input_behaviour.2.2 statLibStub [] [] defaultAlpha⟩

/-- Counterexample to C7 as stated: on empty inputs (with the stubbed
external library) `statistical_comparison` does not return Python's `None`. -/
theorem empty_input_not_null_counterexample :
    isNullResult (statistical_comparison statLibStub [] [] defaultAlpha) = false := by
  with_unfolding_all decide

/-! ## C2: Cohen's d when the differences have zero standard deviation -/

/-- **C2 (amended).**  On the spec's example (`[0.9,0.9,0.9]` vs
`[0.5,0.5,0.5]`) the standard deviation of the paired differences is zero and
`statistical_comparison` divides by it anyway — there is no guard: under
IEEE semantics the reported Cohen's d is `+inf` with interpretation
`"large"`; no division error is raised, but the metric is neither omitted
nor `NaN`. -/
theorem cohens_d_unguarded (lib : StatLib) (t p u up w wp : PyFloat)
    (hsqrt : lib.sqrt (.fin 0) = .fin 0)
    (htt : lib.ttest_rel exampleYou exampleBuiltin = .ok (t, p))
    (hmw : lib.mannwhitneyu exampleYou exampleBuiltin = .ok (u, up))
    (hwc : lib.wilcoxon exampleYou exampleBuiltin = .ok (w, wp)) :
    ∃ r : ComparisonResults,
      statistical_comparison lib exampleYou exampleBuiltin defaultAlpha = .ok (some r) ∧
      r.mean_difference.mean = .fin (2/5) ∧
      r.mean_difference.std = .fin 0 ∧
      r.effect_size.cohens_d = .inf ∧
      r.effect_size.interpretation = "large" := by
  have hm : npMean (List.zipWith PyFloat.sub exampleYou exampleBuiltin) = .fin (2/5) := by
    with_unfolding_all decide
  have hv : npVarDdof1 (List.zipWith PyFloat.sub exampleYou exampleBuiltin) = .fin 0 := by
    with_unfolding_all decide
  have hstd : npStdDdof1 lib.sqrt (List.zipWith PyFloat.sub exampleYou exampleBuiltin)
      = .fin 0 := by
    rw [npStdDdof1, hv, hsqrt]
  have hd : (npMean (List.zipWith PyFloat.sub exampleYou exampleBuiltin)).div
      (npStdDdof1 lib.sqrt (List.zipWith PyFloat.sub exampleYou exampleBuiltin))
      = .inf := by
    rw [hm, hstd]
    with_unfolding_all decide
  rw [statistical_comparison, htt, hmw, hwc]
  refine ⟨_, rfl, hm, hstd, hd, ?_⟩
  rw [hd]
  show interpret_effect_size PyFloat.inf.abs = "large"
  with_unfolding_all decide

/-- Witness for C2 (amended) with the stubbed external library. -/
theorem cohens_d_unguarded_witness :
    ∃ r : ComparisonResults,
      statistical_comparison statLibStub exampleYou exampleBuiltin defaultAlpha
        = .ok (some r) ∧
      r.mean_difference.mean = .fin (2/5) ∧
      r.mean_difference.std = .fin 0 ∧
      r.effect_size.cohens_d = .inf ∧
      r.effect_size.interpretation = "large" :=
  cohens_d_unguarded statLibStub .nan .nan .nan .nan .nan .nan rfl rfl rfl rfl

/-- Counterexample to C2 as stated: the `effect_size` entry on the example is
present (not omitted), equal to `+inf` (not `nan`), and classified
`"large"`. -/
theorem cohens_d_unguarded_counterexample :
    effectEntry (statistical_comparison statLibStub exampleYou exampleBuiltin defaultAlpha)
      = some (PyFloat.inf, "large") := by
  with_unfolding_all decide

/-! ## C3: the command-line paths are never used -/

/-- **C3 (code bug).**  As written, `main` raises `NameError` at line 226
(`argparse` is never imported) whatever arguments are supplied; with that
fixed it still raises `NameError` at line 236 (`default_builtin_path`
is never defined); and with both names fixed, lines 235–236 overwrite the
parsed paths with the defaults, so two supplied positional arguments are
never used as the input files. -/
theorem main_ignores_cli_arguments :
    (∀ you_arg builtin_arg : Option String,
      main_select_paths you_arg builtin_arg = PathOutcome.nameError ("argparse")) ∧
    (∀ you_arg builtin_arg : Option String,
      main_select_paths_if_imported you_arg builtin_arg
        = PathOutcome.nameError ("default_builtin_path")) ∧
    (∀ you_arg builtin_arg : Option String,
      main_select_paths_if_names_fixed you_arg builtin_arg
        = PathOutcome.paths default_you_path argparse_builtin_default) ∧
    main_select_paths_if_names_fixed (some ("candidate.jsonl")) (some ("baseline.jsonl"))
      ≠ PathOutcome.paths ("candidate.jsonl") ("baseline.jsonl") := by
  refine ⟨fun _ _ => rfl, fun _ _ => rfl, fun _ _ => rfl, ?_⟩
  decide

/-- Witness for C3 at concrete command-line arguments. -/
theorem main_ignores_cli_arguments_witness :
    main_select_paths (some ("candidate.jsonl")) (some ("baseline.jsonl"))
      = PathOutcome.nameError ("argparse") ∧
    main_select_paths_if_names_fixed (some ("candidate.jsonl")) (some ("baseline.jsonl"))
      ≠ PathOutcome.paths ("candidate.jsonl") ("baseline.jsonl") :=
  ⟨main_ignores_cli_arguments.1 (some ("candidate.jsonl")) (some ("baseline.jsonl")),
   main_ignores_cli_arguments.2.2.2⟩

end Analyzer
